import Mathlib

/-!
Shallow embedding of
`src/sv-pipeline/scripts/downstream_analysis_and_filtering/label_batch_effects.PCRMinus_only.py`
("Apply batch effect labels to VCF from Talkowski SV pipeline").

A VCF record is modelled with the fields the script touches or reads: the
variant identifier (`vid`), position, the FILTER tag list, the INFO mapping,
and the per-sample calls (sample name paired with a genotype tuple and the
remaining, opaque FORMAT fields).  Genotype tuples such as `(0, 0)`,
`(None, None)`, `(0,)`, `(None,)` and `(None, 2)` are rendered as
`List (Option Nat)`.  Python dicts (the INFO mapping, the reclassification
table) are association lists looked up with `List.lookup`, mirroring
insertion-order dict semantics.
-/

namespace LabelBatchEffects

/-- One INFO value: a Flag-typed boolean or some other (opaque) value. -/
inductive InfoVal where
  | flag (b : Bool)
  | val (s : String)
deriving DecidableEq, Repr

/-- One sample's entry in a record: its GT tuple and its other FORMAT fields
(opaque to this script). -/
structure SampleCall where
  gt : List (Option Nat)
  other : List (String × String)
deriving DecidableEq, Repr

/-- A VCF record, restricted to the parts the script reads or mutates. -/
structure VariantRecord where
  vid : String
  pos : Nat
  filter : List String
  info : List (String × InfoVal)
  samples : List (String × SampleCall)
deriving DecidableEq, Repr

/-- `record.filter.add(f)`: FILTER is a set of tags; adding an existing tag is
a no-op, otherwise the tag is appended. -/
def addFilter (filt : List String) (f : String) : List String :=
  if f ∈ filt then filt else filt ++ [f]

/-- `record.info[key] = True` (preceded by the script's key-presence check):
the key's entry becomes a true Flag; an absent key is appended. -/
def setInfoFlag (info : List (String × InfoVal)) (key : String) :
    List (String × InfoVal) :=
  if (info.lookup key).isSome then
    info.map (fun p => if p.1 == key then (p.1, InfoVal.flag true) else p)
  else
    info ++ [(key, InfoVal.flag true)]

/-- `record.samples[samp]['GT'] = (None, None)`. -/
def nullCall (c : SampleCall) : SampleCall :=
  { c with gt := [none, none] }

/-- One genotype-nulling sweep: every sample whose name satisfies `cond` has
its GT set to `(None, None)`; other FORMAT fields are untouched. -/
def nullSamples (record : VariantRecord) (cond : String → Bool) : VariantRecord :=
  { record with
    samples := record.samples.map
      (fun p => if cond p.1 then (p.1, nullCall p.2) else p) }

/-- The five annotation steps of `reclassify_record`: each label present in
`reclass` adds its FILTER tag or sets its INFO flag. -/
def applyAnnotations (record : VariantRecord) (reclass : List String) :
    VariantRecord :=
  let record := if "PCRPLUS_ENRICHED" ∈ reclass then
      { record with filter := addFilter record.filter "PCRPLUS_ENRICHED" }
    else record
  let record := if "PCRPLUS_DEPLETED" ∈ reclass then
      { record with info := setInfoFlag record.info "PCRPLUS_DEPLETED" }
    else record
  let record := if "VARIABLE_ACROSS_BATCHES" ∈ reclass then
      { record with filter := addFilter record.filter "VARIABLE_ACROSS_BATCHES" }
    else record
  let record := if "UNSTABLE_AF_PCRPLUS" ∈ reclass then
      { record with info := setInfoFlag record.info "UNSTABLE_AF_PCRPLUS" }
    else record
  let record := if "UNSTABLE_AF_PCRMINUS" ∈ reclass then
      { record with filter := addFilter record.filter "UNSTABLE_AF_PCRMINUS" }
    else record
  record

/-- The two genotype-nulling blocks of `reclassify_record`: enrichment-type
labels null every sample NOT in `plus_samples`; depletion-type labels null
every sample IN `plus_samples`. -/
def applyNulling (record : VariantRecord) (reclass plus_samples : List String) :
    VariantRecord :=
  let record :=
    if "PCRPLUS_ENRICHED" ∈ reclass ∨ "UNSTABLE_AF_PCRPLUS" ∈ reclass then
      nullSamples record (fun samp => !(plus_samples.contains samp))
    else record
  let record :=
    if "PCRPLUS_DEPLETED" ∈ reclass ∨ "UNSTABLE_AF_PCRMINUS" ∈ reclass then
      nullSamples record (fun samp => plus_samples.contains samp)
    else record
  record

/-- `reclassify_record(record, reclass, plus_samples)`: annotation steps
followed by the genotype-nulling blocks, in the script's order. -/
def reclassify_record (record : VariantRecord) (reclass plus_samples : List String) :
    VariantRecord :=
  applyNulling (applyAnnotations record reclass) reclass plus_samples

/-- `NULL_GTs = [(0, 0), (None, None), (0, ), (None, ), (None, 2)]`. -/
def NULL_GTs : List (List (Option Nat)) :=
  [[some 0, some 0], [none, none], [some 0], [none], [none, some 2]]

/-- The emission scan of `main`: the reclassified record is written iff some
sample's GT is not in `NULL_GTs`. -/
def shouldEmit (record : VariantRecord) : Bool :=
  record.samples.any (fun p => decide (p.2.gt ∉ NULL_GTs))

/-- The merged reclassification table: VID to its accumulated label list. -/
abbrev Table := List (String × List String)

/-- One table/list insertion: a fresh VID gets the one-label list, an existing
VID has the label appended (duplicates kept). -/
def addAssignment (t : Table) (vid assignment : String) : Table :=
  match t.lookup vid with
  | none => t ++ [(vid, [assignment])]
  | some _ => t.map (fun p => if p.1 == vid then (p.1, p.2 ++ [assignment]) else p)

/-- One row of the tab-delimited table: `for VID, assignment in reader` —
unpacking a row without exactly two fields raises. -/
def parseRow (t : Table) (row : List String) : Except String Table :=
  match row with
  | [vid, assignment] => Except.ok (addAssignment t vid assignment)
  | _ => Except.error "malformed reclassification table row"

/-- Reading the whole reclassification table. -/
def readTable (rows : List (List String)) : Except String Table :=
  rows.foldlM parseRow []

/-- Folding one optional flat VID list into the table, each listed VID
receiving `assignment` once per occurrence. -/
def addListFile (t : Table) (vids : List String) (assignment : String) : Table :=
  vids.foldl (fun t vid => addAssignment t vid assignment) t

/-- The full table build of `main`: the tab-delimited table, then the optional
unstable-AF PCR-plus and PCR-minus lists. -/
def buildTable (rows : List (List String))
    (uafPlus uafMinus : Option (List String)) : Except String Table := do
  let t ← readTable rows
  let t := match uafPlus with
    | some vids => addListFile t vids "UNSTABLE_AF_PCRPLUS"
    | none => t
  let t := match uafMinus with
    | some vids => addListFile t vids "UNSTABLE_AF_PCRMINUS"
    | none => t
  return t

/-- The per-record body of `main`'s loop: a VID absent from the table passes
through unchanged; otherwise the record is reclassified and emitted only if
`shouldEmit` holds. -/
def processRecord (table : Table) (plus_samples : List String)
    (record : VariantRecord) : List VariantRecord :=
  match table.lookup record.vid with
  | none => [record]
  | some reclass =>
      let newrecord := reclassify_record record reclass plus_samples
      if shouldEmit newrecord then [newrecord] else []

/-- The whole run: build the table (aborting on a malformed row), then process
every record with the deployed empty PCR-plus roster. -/
def runMain (rows : List (List String)) (uafPlus uafMinus : Option (List String))
    (records : List VariantRecord) : Except String (List VariantRecord) := do
  let table ← buildTable rows uafPlus uafMinus
  return records.flatMap (processRecord table [])

/-- The four-shape "no information" genotype set as the specification words
it: the homozygous-reference two-tuple, the fully-missing two-tuple, the
fully-missing one-tuple, and the designated mixed-missing form.  Stated from
the spec's sentence, for comparison against the script's `NULL_GTs`. -/
def specNullGTs : List (List (Option Nat)) :=
  [[some 0, some 0], [none, none], [none], [none, some 2]]

/-- Concrete record whose only sample carries the hom-ref one-tuple `(0,)`. -/
def rC1 : VariantRecord :=
  { vid := "varX", pos := 1, filter := [], info := [],
    samples := [("S1", { gt := [some 0], other := [] })] }

/-- Concrete two-sample record used to instantiate the general theorems. -/
def rEx : VariantRecord :=
  { vid := "var1", pos := 42, filter := ["PASS"],
    info := [("SVTYPE", InfoVal.val "DEL")],
    samples := [("S1", { gt := [some 0, some 1], other := [("GQ", "99")] }),
                ("S2", { gt := [some 0, some 0], other := [] })] }

/-- Concrete record with an empty per-sample genotype mapping. -/
def rEmpty : VariantRecord :=
  { vid := "var2", pos := 3, filter := [], info := [], samples := [] }

/-! ### Helper lemmas -/

theorem applyAnnotations_samples (r : VariantRecord) (reclass : List String) :
    (applyAnnotations r reclass).samples = r.samples := by
  simp only [applyAnnotations]
  repeat first | rfl | split

theorem applyAnnotations_vid (r : VariantRecord) (reclass : List String) :
    (applyAnnotations r reclass).vid = r.vid := by
  simp only [applyAnnotations]
  repeat first | rfl | split

theorem applyAnnotations_pos (r : VariantRecord) (reclass : List String) :
    (applyAnnotations r reclass).pos = r.pos := by
  simp only [applyAnnotations]
  repeat first | rfl | split

theorem applyNulling_filter (r : VariantRecord) (reclass plus : List String) :
    (applyNulling r reclass plus).filter = r.filter := by
  simp only [applyNulling, nullSamples]
  repeat first | rfl | split

theorem applyNulling_info (r : VariantRecord) (reclass plus : List String) :
    (applyNulling r reclass plus).info = r.info := by
  simp only [applyNulling, nullSamples]
  repeat first | rfl | split

theorem applyNulling_vid (r : VariantRecord) (reclass plus : List String) :
    (applyNulling r reclass plus).vid = r.vid := by
  simp only [applyNulling, nullSamples]
  repeat first | rfl | split

theorem applyNulling_pos (r : VariantRecord) (reclass plus : List String) :
    (applyNulling r reclass plus).pos = r.pos := by
  simp only [applyNulling, nullSamples]
  repeat first | rfl | split

theorem mem_addFilter_of_mem {x : String} {l : List String} (f : String)
    (h : x ∈ l) : x ∈ addFilter l f := by
  simp only [addFilter]
  split
  · exact h
  · exact List.mem_append_left _ h

theorem mem_addFilter_self (l : List String) (f : String) : f ∈ addFilter l f := by
  simp only [addFilter]
  split
  · assumption
  · simp

theorem lookup_append_of_none {β : Type} (t rest : List (String × β)) (w : String)
    (h : t.lookup w = none) : (t ++ rest).lookup w = rest.lookup w := by
  induction t with
  | nil => simp
  | cons p t ih =>
      obtain ⟨k, b⟩ := p
      by_cases hw : w = k
      · subst hw
        simp [List.lookup_cons] at h
      · simp only [List.cons_append, List.lookup_cons,
          beq_false_of_ne hw] at h ⊢
        exact ih h

theorem lookup_append_of_some {β : Type} (t rest : List (String × β)) (w : String)
    {x : β} (h : t.lookup w = some x) : (t ++ rest).lookup w = some x := by
  induction t with
  | nil => simp at h
  | cons p t ih =>
      obtain ⟨k, b⟩ := p
      by_cases hw : w = k
      · subst hw
        simpa [List.lookup_cons] using h
      · simp only [List.cons_append, List.lookup_cons,
          beq_false_of_ne hw] at h ⊢
        exact ih h

theorem lookup_map_update {β : Type} (t : List (String × β)) (v w : String)
    (f : β → β) :
    (t.map (fun p => if p.1 == v then (p.1, f p.2) else p)).lookup w =
      if w = v then (t.lookup w).map f else t.lookup w := by
  induction t with
  | nil => simp
  | cons p t ih =>
      obtain ⟨k, b⟩ := p
      simp only [List.map_cons]
      by_cases hkv : k = v
      · subst hkv
        rw [if_pos (beq_self_eq_true k)]
        by_cases hw : w = k
        · subst hw
          simp [List.lookup_cons]
        · rw [List.lookup_cons, List.lookup_cons]
          rw [beq_false_of_ne hw]
          rw [if_neg hw] at ih ⊢
          exact ih
      · rw [beq_false_of_ne hkv, if_neg (by simp)]
        by_cases hw : w = k
        · subst hw
          rw [List.lookup_cons, List.lookup_cons, beq_self_eq_true]
          rw [if_neg (fun h : w = v => hkv (h ▸ rfl))]
        · rw [List.lookup_cons, List.lookup_cons, beq_false_of_ne hw]
          exact ih

theorem lookup_addAssignment (t : Table) (v l w : String) :
    (addAssignment t v l).lookup w =
      if w = v then some (((t.lookup w).getD []) ++ [l]) else t.lookup w := by
  unfold addAssignment
  cases hv : t.lookup v with
  | none =>
      by_cases hw : w = v
      · subst hw
        rw [lookup_append_of_none t _ w hv, if_pos rfl, hv]
        simp [List.lookup_cons]
      · rw [if_neg hw]
        cases hx : t.lookup w with
        | none =>
            rw [lookup_append_of_none t _ w hx]
            simp [List.lookup_cons, beq_false_of_ne hw]
        | some x => exact lookup_append_of_some t _ w hx
  | some xs =>
      rw [lookup_map_update t v w (fun ys => ys ++ [l])]
      by_cases hw : w = v
      · subst hw
        rw [if_pos rfl, if_pos rfl, hv]
        rfl
      · rw [if_neg hw, if_neg hw]

theorem lookup_addListFile (t : Table) (vids : List String) (lab w : String) :
    (addListFile t vids lab).lookup w =
      if w ∈ vids then
        some ((t.lookup w).getD [] ++ List.replicate (vids.count w) lab)
      else t.lookup w := by
  induction vids generalizing t with
  | nil => simp [addListFile]
  | cons v vids ih =>
      have hstep : addListFile t (v :: vids) lab =
          addListFile (addAssignment t v lab) vids lab := rfl
      rw [hstep, ih]
      by_cases hw : w = v
      · subst hw
        rw [lookup_addAssignment]
        rw [if_pos rfl, if_pos (List.mem_cons_self w vids)]
        by_cases hmem : w ∈ vids
        · rw [if_pos hmem]
          simp [List.count_cons, List.replicate_succ]
        · rw [if_neg hmem]
          simp [List.count_cons, List.count_eq_zero_of_not_mem hmem]
      · rw [lookup_addAssignment, if_neg hw]
        by_cases hmem : w ∈ vids
        · rw [if_pos hmem, if_pos (List.mem_cons_of_mem v hmem)]
          simp [List.count_cons, Ne.symm hw]
        · rw [if_neg hmem, if_neg (by simp [hw, hmem])]

theorem lookup_setInfoFlag_self (info : List (String × InfoVal)) (key : String) :
    (setInfoFlag info key).lookup key = some (InfoVal.flag true) := by
  unfold setInfoFlag
  cases hk : info.lookup key with
  | none =>
      simp only [hk, Option.isSome_none, Bool.false_eq_true, if_false]
      rw [lookup_append_of_none info _ key hk]
      simp [List.lookup_cons]
  | some x =>
      simp only [hk, Option.isSome_some, if_true]
      rw [lookup_map_update info key key (fun _ => InfoVal.flag true), if_pos rfl, hk]
      rfl

theorem lookup_setInfoFlag_ne (info : List (String × InfoVal)) (key w : String)
    (hw : w ≠ key) : (setInfoFlag info key).lookup w = info.lookup w := by
  unfold setInfoFlag
  cases hk : info.lookup key with
  | none =>
      simp only [hk, Option.isSome_none, Bool.false_eq_true, if_false]
      cases hx : info.lookup w with
      | none =>
          rw [lookup_append_of_none info _ w hx]
          simp [List.lookup_cons, beq_false_of_ne hw]
      | some x => exact lookup_append_of_some info _ w hx
  | some x =>
      simp only [hk, Option.isSome_some, if_true]
      rw [lookup_map_update info key w (fun _ => InfoVal.flag true), if_neg hw]


theorem applyAnnotations_info (r : VariantRecord) (reclass : List String) :
    (applyAnnotations r reclass).info =
      (if "UNSTABLE_AF_PCRPLUS" ∈ reclass then
        (setInfoFlag · "UNSTABLE_AF_PCRPLUS") else id)
      ((if "PCRPLUS_DEPLETED" ∈ reclass then
        (setInfoFlag · "PCRPLUS_DEPLETED") else id) r.info) := by
  simp only [applyAnnotations]
  by_cases h1 : "PCRPLUS_ENRICHED" ∈ reclass <;>
  by_cases h2 : "PCRPLUS_DEPLETED" ∈ reclass <;>
  by_cases h3 : "VARIABLE_ACROSS_BATCHES" ∈ reclass <;>
  by_cases h4 : "UNSTABLE_AF_PCRPLUS" ∈ reclass <;>
  by_cases h5 : "UNSTABLE_AF_PCRMINUS" ∈ reclass <;>
  simp [h1, h2, h3, h4, h5]

theorem applyAnnotations_filter (r : VariantRecord) (reclass : List String) :
    (applyAnnotations r reclass).filter =
      (if "UNSTABLE_AF_PCRMINUS" ∈ reclass then
        (addFilter · "UNSTABLE_AF_PCRMINUS") else id)
      ((if "VARIABLE_ACROSS_BATCHES" ∈ reclass then
        (addFilter · "VARIABLE_ACROSS_BATCHES") else id)
      ((if "PCRPLUS_ENRICHED" ∈ reclass then
        (addFilter · "PCRPLUS_ENRICHED") else id) r.filter)) := by
  simp only [applyAnnotations]
  by_cases h1 : "PCRPLUS_ENRICHED" ∈ reclass <;>
  by_cases h2 : "PCRPLUS_DEPLETED" ∈ reclass <;>
  by_cases h3 : "VARIABLE_ACROSS_BATCHES" ∈ reclass <;>
  by_cases h4 : "UNSTABLE_AF_PCRPLUS" ∈ reclass <;>
  by_cases h5 : "UNSTABLE_AF_PCRMINUS" ∈ reclass <;>
  simp [h1, h2, h3, h4, h5]

theorem applyNulling_samples (r : VariantRecord) (reclass plus : List String) :
    (applyNulling r reclass plus).samples =
      (if "PCRPLUS_DEPLETED" ∈ reclass ∨ "UNSTABLE_AF_PCRMINUS" ∈ reclass then
        (List.map (fun p => if plus.contains p.1 then (p.1, nullCall p.2) else p))
       else id)
      ((if "PCRPLUS_ENRICHED" ∈ reclass ∨ "UNSTABLE_AF_PCRPLUS" ∈ reclass then
        (List.map (fun p => if !(plus.contains p.1) then (p.1, nullCall p.2) else p))
       else id)
      r.samples) := by
  simp only [applyNulling, nullSamples]
  by_cases h1 : "PCRPLUS_ENRICHED" ∈ reclass ∨ "UNSTABLE_AF_PCRPLUS" ∈ reclass <;>
  by_cases h2 : "PCRPLUS_DEPLETED" ∈ reclass ∨ "UNSTABLE_AF_PCRMINUS" ∈ reclass <;>
  simp [h1, h2]

theorem reclassify_record_samples (r : VariantRecord) (reclass plus : List String) :
    (reclassify_record r reclass plus).samples =
      (if "PCRPLUS_DEPLETED" ∈ reclass ∨ "UNSTABLE_AF_PCRMINUS" ∈ reclass then
        (List.map (fun p => if plus.contains p.1 then (p.1, nullCall p.2) else p))
       else id)
      ((if "PCRPLUS_ENRICHED" ∈ reclass ∨ "UNSTABLE_AF_PCRPLUS" ∈ reclass then
        (List.map (fun p => if !(plus.contains p.1) then (p.1, nullCall p.2) else p))
       else id)
      r.samples) := by
  rw [reclassify_record, applyNulling_samples, applyAnnotations_samples]

theorem reclassify_record_vid (r : VariantRecord) (reclass plus : List String) :
    (reclassify_record r reclass plus).vid = r.vid := by
  rw [reclassify_record, applyNulling_vid, applyAnnotations_vid]

theorem reclassify_record_pos (r : VariantRecord) (reclass plus : List String) :
    (reclassify_record r reclass plus).pos = r.pos := by
  rw [reclassify_record, applyNulling_pos, applyAnnotations_pos]

theorem reclassify_record_filter (r : VariantRecord) (reclass plus : List String) :
    (reclassify_record r reclass plus).filter = (applyAnnotations r reclass).filter := by
  rw [reclassify_record, applyNulling_filter]

theorem reclassify_record_info (r : VariantRecord) (reclass plus : List String) :
    (reclassify_record r reclass plus).info = (applyAnnotations r reclass).info := by
  rw [reclassify_record, applyNulling_info]

theorem shouldEmit_iff (r : VariantRecord) :
    shouldEmit r = true ↔ ∃ p ∈ r.samples, p.2.gt ∉ NULL_GTs := by
  unfold shouldEmit
  rw [List.any_eq_true]
  simp

theorem forall2_names_other (l : List (String × SampleCall))
    (f : String × SampleCall → String × SampleCall)
    (hf : ∀ p, (f p).1 = p.1 ∧ (f p).2.other = p.2.other) :
    List.Forall₂ (fun p q => p.1 = q.1 ∧ p.2.other = q.2.other) l (l.map f) := by
  induction l with
  | nil => exact List.Forall₂.nil
  | cons p l ih => exact List.Forall₂.cons ⟨(hf p).1.symm, (hf p).2.symm⟩ ih

theorem foldlM_parseRow_error (rows : List (List String)) (t : Table)
    (h : ∃ row ∈ rows, row.length ≠ 2) :
    ∃ e, rows.foldlM parseRow t = Except.error e := by
  induction rows generalizing t with
  | nil => rcases h with ⟨row, hmem, _⟩; cases hmem
  | cons r rows ih =>
      rw [List.foldlM_cons]
      cases hp : parseRow t r with
      | error e => exact ⟨e, rfl⟩
      | ok t' =>
          rcases h with ⟨row, hmem, hlen⟩
          rcases List.mem_cons.mp hmem with heq | hmem'
          · subst heq
            exfalso
            cases row with
            | nil => simp [parseRow] at hp
            | cons a rest =>
                cases rest with
                | nil => simp [parseRow] at hp
                | cons b rest2 =>
                    cases rest2 with
                    | nil => exact hlen rfl
                    | cons c rest3 => simp [parseRow] at hp
          · obtain ⟨e, he⟩ := ih t' ⟨row, hmem', hlen⟩
            exact ⟨e, by simpa using he⟩

/-! ### Claim theorems -/

/-- Claim C1, counterexample: a record whose single sample carries the
hom-ref one-tuple `(0,)` is reclassified (its VID has a table entry) and is
NOT emitted, even though that genotype lies outside the spec's four-shape
null set — so emission is not decided by the four-shape set. -/
theorem emission_fourshape_false :
    processRecord [("varX", ["VARIABLE_ACROSS_BATCHES"])] [] rC1 = [] ∧
    ∃ p ∈ (reclassify_record rC1 ["VARIABLE_ACROSS_BATCHES"] []).samples,
      p.2.gt ∉ specNullGTs := by decide

/-- Claim C1 (amended): a reclassified record is emitted iff at least one
sample's genotype after reclassification lies outside the five-shape
`NULL_GTs` set `{(0,0), (None,None), (0,), (None,), (None,2)}` — the code's
null set also contains the hom-ref one-tuple `(0,)`. -/
theorem emission_iff_informative (table : Table) (plus_samples : List String)
    (r : VariantRecord) (reclass : List String)
    (h : table.lookup r.vid = some reclass) :
    processRecord table plus_samples r =
      if ∃ p ∈ (reclassify_record r reclass plus_samples).samples,
          p.2.gt ∉ NULL_GTs
      then [reclassify_record r reclass plus_samples] else [] := by
  unfold processRecord
  rw [h]
  exact if_congr (shouldEmit_iff _) rfl rfl

theorem emission_iff_informative_witness :
    processRecord [("var1", ["PCRPLUS_ENRICHED"])] [] rEx =
      (if ∃ p ∈ (reclassify_record rEx ["PCRPLUS_ENRICHED"] []).samples,
          p.2.gt ∉ NULL_GTs
       then [reclassify_record rEx ["PCRPLUS_ENRICHED"] []] else []) :=
  emission_iff_informative [("var1", ["PCRPLUS_ENRICHED"])] [] rEx
    ["PCRPLUS_ENRICHED"] (by decide)

/-- Claim C2: with the deployed empty PCR-plus roster, a label multiset
containing `PCRPLUS_ENRICHED` or `UNSTABLE_AF_PCRPLUS` nulls every sample's
genotype to `(None, None)`; a multiset containing only `PCRPLUS_DEPLETED`
and/or `UNSTABLE_AF_PCRMINUS` changes no genotype while still setting the
`PCRPLUS_DEPLETED` INFO flag and adding the `UNSTABLE_AF_PCRMINUS` FILTER
tag. -/
theorem deployed_roster_nulling (r : VariantRecord) (reclass : List String) :
    (("PCRPLUS_ENRICHED" ∈ reclass ∨ "UNSTABLE_AF_PCRPLUS" ∈ reclass) →
      ∀ p ∈ (reclassify_record r reclass []).samples, p.2.gt = [none, none]) ∧
    ((∀ l ∈ reclass, l = "PCRPLUS_DEPLETED" ∨ l = "UNSTABLE_AF_PCRMINUS") →
      ((reclassify_record r reclass []).samples = r.samples ∧
       ("PCRPLUS_DEPLETED" ∈ reclass →
         (reclassify_record r reclass []).info.lookup "PCRPLUS_DEPLETED"
           = some (InfoVal.flag true)) ∧
       ("UNSTABLE_AF_PCRMINUS" ∈ reclass →
         "UNSTABLE_AF_PCRMINUS" ∈ (reclassify_record r reclass []).filter))) := by
  constructor
  · intro h p hp
    rw [reclassify_record_samples, if_pos h] at hp
    by_cases h2 : "PCRPLUS_DEPLETED" ∈ reclass ∨ "UNSTABLE_AF_PCRMINUS" ∈ reclass
    · rw [if_pos h2] at hp
      simp only [List.map_map, List.mem_map] at hp
      obtain ⟨q, _, rfl⟩ := hp
      simp [Function.comp, nullCall]
    · rw [if_neg h2] at hp
      simp only [id, List.mem_map] at hp
      obtain ⟨q, _, rfl⟩ := hp
      simp [nullCall]
  · intro honly
    have hE : "PCRPLUS_ENRICHED" ∉ reclass := by
      intro hmem
      rcases honly _ hmem with h | h <;> simp at h
    have hP : "UNSTABLE_AF_PCRPLUS" ∉ reclass := by
      intro hmem
      rcases honly _ hmem with h | h <;> simp at h
    have hne : ¬("PCRPLUS_ENRICHED" ∈ reclass ∨ "UNSTABLE_AF_PCRPLUS" ∈ reclass) := by
      rintro (h | h)
      exacts [hE h, hP h]
    refine ⟨?_, ?_, ?_⟩
    · rw [reclassify_record_samples, if_neg hne]
      by_cases h2 : "PCRPLUS_DEPLETED" ∈ reclass ∨ "UNSTABLE_AF_PCRMINUS" ∈ reclass
      · rw [if_pos h2]
        simp
      · rw [if_neg h2]
        rfl
    · intro hD
      rw [reclassify_record_info, applyAnnotations_info, if_neg hP, if_pos hD]
      simp only [id]
      exact lookup_setInfoFlag_self r.info "PCRPLUS_DEPLETED"
    · intro hM
      rw [reclassify_record_filter, applyAnnotations_filter, if_pos hM, if_neg hE]
      exact mem_addFilter_self _ _

theorem deployed_roster_nulling_witness :
    (∀ p ∈ (reclassify_record rEx ["PCRPLUS_ENRICHED"] []).samples,
      p.2.gt = [none, none]) ∧
    (reclassify_record rEx ["UNSTABLE_AF_PCRMINUS"] []).samples = rEx.samples ∧
    "UNSTABLE_AF_PCRMINUS" ∈ (reclassify_record rEx ["UNSTABLE_AF_PCRMINUS"] []).filter :=
  ⟨(deployed_roster_nulling rEx ["PCRPLUS_ENRICHED"]).1 (Or.inl (by decide)),
   ((deployed_roster_nulling rEx ["UNSTABLE_AF_PCRMINUS"]).2
      (by intro l hl; exact Or.inr (by simpa using hl))).1,
   ((deployed_roster_nulling rEx ["UNSTABLE_AF_PCRMINUS"]).2
      (by intro l hl; exact Or.inr (by simpa using hl))).2.2 (by decide)⟩

/-- Claim C3: with PCR-plus roster `{S1}`, label `{PCRPLUS_ENRICHED}` nulls
every sample except `S1`; `{PCRPLUS_DEPLETED}` nulls only `S1`; both labels
together null every sample — the nulling conditions combine by union. -/
theorem label_union_nulling (r : VariantRecord) :
    ((reclassify_record r ["PCRPLUS_ENRICHED"] ["S1"]).samples
        = r.samples.map (fun p => if p.1 = "S1" then p else (p.1, nullCall p.2))) ∧
    ((reclassify_record r ["PCRPLUS_DEPLETED"] ["S1"]).samples
        = r.samples.map (fun p => if p.1 = "S1" then (p.1, nullCall p.2) else p)) ∧
    ((reclassify_record r ["PCRPLUS_ENRICHED", "PCRPLUS_DEPLETED"] ["S1"]).samples
        = r.samples.map (fun p => (p.1, nullCall p.2))) := by
  refine ⟨?_, ?_, ?_⟩
  · rw [reclassify_record_samples]
    rw [if_neg (by decide), if_pos (by decide)]
    apply List.map_congr_left
    intro p _
    by_cases h : p.1 = "S1" <;> simp [h, List.contains]
  · rw [reclassify_record_samples]
    rw [if_pos (by decide), if_neg (by decide)]
    simp only [id]
    apply List.map_congr_left
    intro p _
    by_cases h : p.1 = "S1" <;> simp [h, List.contains]
  · rw [reclassify_record_samples]
    rw [if_pos (by decide), if_pos (by decide)]
    rw [List.map_map]
    apply List.map_congr_left
    intro p _
    by_cases h : p.1 = "S1" <;> simp [Function.comp, h, List.contains]

/-- Claim C4: a record whose VID has no entry in the merged table is passed
through to the output exactly as it came in. -/
theorem passthrough_unchanged (table : Table) (plus_samples : List String)
    (r : VariantRecord) (h : table.lookup r.vid = none) :
    processRecord table plus_samples r = [r] := by
  unfold processRecord
  rw [h]

theorem passthrough_unchanged_witness :
    processRecord [("other", ["PCRPLUS_ENRICHED"])] [] rEx = [rEx] :=
  passthrough_unchanged [("other", ["PCRPLUS_ENRICHED"])] [] rEx (by decide)

/-- Claim C5: reclassification never removes a FILTER tag — every tag of the
input record is still present after `reclassify_record`. -/
theorem filter_append_only (r : VariantRecord) (reclass plus_samples : List String) :
    ∀ f, f ∈ r.filter → f ∈ (reclassify_record r reclass plus_samples).filter := by
  intro f hf
  rw [reclassify_record_filter, applyAnnotations_filter]
  split <;> split <;> split <;>
    simp only [id]  <;>
    (repeat first | exact hf | apply mem_addFilter_of_mem)

theorem filter_append_only_witness :
    "PASS" ∈ (reclassify_record rEx ["PCRPLUS_ENRICHED"] ["S1"]).filter :=
  filter_append_only rEx ["PCRPLUS_ENRICHED"] ["S1"] "PASS" (by decide)

/-- Claim C6: nulling sets a sample's call to the fully-missing two-tuple
regardless of its prior call, is idempotent on a single call, and running a
nulling sweep twice on a record equals running it once. -/
theorem nulling_idempotent (r : VariantRecord) (cond : String → Bool)
    (c : SampleCall) :
    nullCall c = { c with gt := [none, none] } ∧
    nullCall (nullCall c) = nullCall c ∧
    nullSamples (nullSamples r cond) cond = nullSamples r cond := by
  refine ⟨rfl, rfl, ?_⟩
  unfold nullSamples
  simp only [List.map_map]
  congr 1
  apply List.map_congr_left
  intro p _
  by_cases h : cond p.1
  · simp [Function.comp, h, nullCall]
  · simp [Function.comp, h]

/-- Claim C7: labels from the optional list files are appended to whatever the
main table already holds for a VID, duplicates preserved; in particular a VID
listed once in the unstable-AF-PCR-plus file and absent from the main table
maps to the single label `UNSTABLE_AF_PCRPLUS`. -/
theorem supplemental_list_merge (rows : List (List String)) (t t2 : Table)
    (uafPlus uafMinus : List String) (vid : String)
    (hrows : readTable rows = Except.ok t)
    (hbuild : buildTable rows (some uafPlus) (some uafMinus) = Except.ok t2)
    (hv : vid ∈ uafPlus) :
    t2.lookup vid =
      some ((t.lookup vid).getD []
        ++ List.replicate (uafPlus.count vid) "UNSTABLE_AF_PCRPLUS"
        ++ List.replicate (uafMinus.count vid) "UNSTABLE_AF_PCRMINUS") := by
  have ht2 : t2 = addListFile (addListFile t uafPlus "UNSTABLE_AF_PCRPLUS")
      uafMinus "UNSTABLE_AF_PCRMINUS" := by
    unfold buildTable at hbuild
    rw [hrows] at hbuild
    simpa using hbuild.symm
  subst ht2
  rw [lookup_addListFile]
  by_cases hm : vid ∈ uafMinus
  · rw [if_pos hm, lookup_addListFile, if_pos hv]
    simp
  · rw [if_neg hm, lookup_addListFile, if_pos hv]
    simp [List.count_eq_zero_of_not_mem hm]

theorem supplemental_list_merge_witness :
    ([("varA", ["PCRPLUS_ENRICHED"]), ("varC", ["UNSTABLE_AF_PCRPLUS"])] : Table).lookup "varC" =
      some ((([("varA", ["PCRPLUS_ENRICHED"])] : Table).lookup "varC").getD []
        ++ List.replicate ((["varC"] : List String).count "varC") "UNSTABLE_AF_PCRPLUS"
        ++ List.replicate (([] : List String).count "varC") "UNSTABLE_AF_PCRMINUS") :=
  supplemental_list_merge [["varA", "PCRPLUS_ENRICHED"]]
    [("varA", ["PCRPLUS_ENRICHED"])]
    [("varA", ["PCRPLUS_ENRICHED"]), ("varC", ["UNSTABLE_AF_PCRPLUS"])]
    ["varC"] [] "varC" (by rfl) (by rfl) (by decide)

/-- Claim C8: a classification-table row without exactly two tab-separated
fields makes the whole run abort with an error before any output record is
produced. -/
theorem malformed_row_fatal (rows : List (List String)) (row : List String)
    (hrow : row ∈ rows) (hlen : row.length ≠ 2)
    (uafPlus uafMinus : Option (List String)) (records : List VariantRecord) :
    ∃ e, runMain rows uafPlus uafMinus records = Except.error e := by
  obtain ⟨e, he⟩ := foldlM_parseRow_error rows [] ⟨row, hrow, hlen⟩
  refine ⟨e, ?_⟩
  unfold runMain buildTable readTable
  rw [he]
  rfl

theorem malformed_row_fatal_witness :
    ∃ e, runMain [["bad"]] none none [rEmpty] = Except.error e :=
  malformed_row_fatal [["bad"]] ["bad"] (by decide) (by decide) none none [rEmpty]

/-- Claim C9: `reclassify_record` leaves the record's identifier, position,
every INFO key other than `PCRPLUS_DEPLETED` and `UNSTABLE_AF_PCRPLUS`, the
sample names in order, and every non-GT per-sample field unchanged. -/
theorem reclassify_frame (r : VariantRecord) (reclass plus_samples : List String) :
    (reclassify_record r reclass plus_samples).vid = r.vid ∧
    (reclassify_record r reclass plus_samples).pos = r.pos ∧
    (∀ k, k ≠ "PCRPLUS_DEPLETED" → k ≠ "UNSTABLE_AF_PCRPLUS" →
      (reclassify_record r reclass plus_samples).info.lookup k = r.info.lookup k) ∧
    List.Forall₂ (fun p q => p.1 = q.1 ∧ p.2.other = q.2.other)
      r.samples (reclassify_record r reclass plus_samples).samples := by
  refine ⟨reclassify_record_vid r reclass plus_samples,
    reclassify_record_pos r reclass plus_samples, ?_, ?_⟩
  · intro k hkD hkP
    rw [reclassify_record_info, applyAnnotations_info]
    by_cases h4 : "UNSTABLE_AF_PCRPLUS" ∈ reclass <;>
    by_cases h2 : "PCRPLUS_DEPLETED" ∈ reclass <;>
      simp only [h4, h2, if_true, if_false, id,
        lookup_setInfoFlag_ne _ _ _ hkP, lookup_setInfoFlag_ne _ _ _ hkD]
  · rw [reclassify_record_samples]
    by_cases h1 : "PCRPLUS_ENRICHED" ∈ reclass ∨ "UNSTABLE_AF_PCRPLUS" ∈ reclass <;>
    by_cases h2 : "PCRPLUS_DEPLETED" ∈ reclass ∨ "UNSTABLE_AF_PCRMINUS" ∈ reclass <;>
      simp only [h1, h2, if_true, if_false, id]
    · rw [List.map_map]
      apply forall2_names_other
      intro p
      by_cases h : p.1 ∈ plus_samples <;> simp [Function.comp, h, nullCall]
    · apply forall2_names_other
      intro p
      by_cases h : p.1 ∈ plus_samples <;> simp [h, nullCall]
    · apply forall2_names_other
      intro p
      by_cases h : p.1 ∈ plus_samples <;> simp [h, nullCall]
    · exact List.forall₂_same.mpr (fun p _ => ⟨rfl, rfl⟩)

theorem reclassify_frame_witness :
    (reclassify_record rEx ["PCRPLUS_DEPLETED"] ["S1"]).vid = rEx.vid ∧
    (reclassify_record rEx ["PCRPLUS_DEPLETED"] ["S1"]).pos = rEx.pos ∧
    (reclassify_record rEx ["PCRPLUS_DEPLETED"] ["S1"]).info.lookup "SVTYPE"
      = rEx.info.lookup "SVTYPE" ∧
    List.Forall₂ (fun p q => p.1 = q.1 ∧ p.2.other = q.2.other) rEx.samples
      (reclassify_record rEx ["PCRPLUS_DEPLETED"] ["S1"]).samples :=
  ⟨(reclassify_frame rEx ["PCRPLUS_DEPLETED"] ["S1"]).1,
   (reclassify_frame rEx ["PCRPLUS_DEPLETED"] ["S1"]).2.1,
   (reclassify_frame rEx ["PCRPLUS_DEPLETED"] ["S1"]).2.2.1 "SVTYPE"
     (by decide) (by decide),
   (reclassify_frame rEx ["PCRPLUS_DEPLETED"] ["S1"]).2.2.2⟩

/-- Claim C10: a record whose VID has a table entry but whose per-sample
genotype mapping is empty is never emitted, whatever the labels are. -/
theorem zero_samples_never_emitted (table : Table) (plus_samples : List String)
    (r : VariantRecord) (reclass : List String)
    (h : table.lookup r.vid = some reclass) (hs : r.samples = []) :
    processRecord table plus_samples r = [] := by
  unfold processRecord
  rw [h]
  have hsam : (reclassify_record r reclass plus_samples).samples = [] := by
    rw [reclassify_record_samples, hs]
    split <;> split <;> simp
  simp [shouldEmit, hsam]

theorem zero_samples_never_emitted_witness :
    processRecord [("var2", ["VARIABLE_ACROSS_BATCHES"])] [] rEmpty = [] :=
  zero_samples_never_emitted [("var2", ["VARIABLE_ACROSS_BATCHES"])] [] rEmpty
    ["VARIABLE_ACROSS_BATCHES"] (by decide) rfl

end LabelBatchEffects
